import Mathlib

/-!
# Verification of the GTFS Transit Arrival Resolution Engine

A shallow embedding of the arrival-resolution code of the Client-Server
repository (the DB-backed handler in `server/src/routes/arrivals.js`, and the
nearest-stop helper in `server/src/tallinnApi.js`), together with theorems
settling the specification claims about it.

JavaScript numeric results that can be `NaN` are modelled as `Option Nat`
(respectively `Option ℝ` for the distance helper), with `none` playing the
role of `NaN`: arithmetic propagates `none`, and every ordering comparison
against `none` is `false`, exactly as `NaN` behaves under `<`, `<=`, `>=`.
-/

namespace GtfsArrivals

/-! ## JavaScript primitives used by `arrivals.js` -/

/-- Split a character list at every occurrence of `:` (the behaviour of the
JS `split(':')`: `"".split` gives one empty group, separators at the ends give
empty groups). -/
def splitColon : List Char → List (List Char)
  | [] => [[]]
  | c :: rest =>
    if c = ':' then [] :: splitColon rest
    else
      match splitColon rest with
      | [] => [[c]]
      | g :: gs => (c :: g) :: gs

/-- `s.split(':')` of JS, on Lean strings. -/
def jsSplitColon (s : String) : List String :=
  (splitColon s.data).map String.mk

/-- Lexicographic order on character lists (by code point), the order MySQL
uses to compare the `VARCHAR` date and time columns with a string parameter. -/
def charListLE : List Char → List Char → Bool
  | [], _ => true
  | _ :: _, [] => false
  | c :: cs, d :: ds =>
    if c.toNat < d.toNat then true
    else if d.toNat < c.toNat then false
    else charListLE cs ds

/-- Lexicographic string comparison (`a <= b` of the SQL layer). -/
def strLE (a b : String) : Bool :=
  charListLE a.data b.data

/-- The first `n` characters of a string (`substring` on these inputs). -/
def strTake (s : String) (n : Nat) : String :=
  String.mk (s.data.take n)

/-- The string without its first `n` characters. -/
def strDrop (s : String) (n : Nat) : String :=
  String.mk (s.data.drop n)

/-- `parseInt(s)` for the strings that occur here: the longest leading run of
decimal digits, `NaN` (= `none`) when there is none. -/
def jsParseInt (s : String) : Option Nat :=
  match s.data.takeWhile Char.isDigit with
  | [] => none
  | ds => some (ds.foldl (fun acc c => acc * 10 + (c.toNat - 48)) 0)

/-- `parseInt(parts[i] || 0)`: a missing (`undefined`) or empty part falls back
to the number `0`; otherwise the part is parsed with `parseInt`. -/
def jsPart (part : Option String) : Option Nat :=
  match part with
  | none => some 0
  | some s => if s = "" then some 0 else jsParseInt s

/-- NaN-propagating addition of JS numbers. -/
def jsAdd (a b : Option Nat) : Option Nat :=
  match a, b with
  | some x, some y => some (x + y)
  | _, _ => none

/-- NaN-propagating multiplication by a constant. -/
def jsMulC (a : Option Nat) (k : Nat) : Option Nat :=
  a.map (· * k)

/-- NaN-propagating remainder by a constant. -/
def jsModC (a : Option Nat) (k : Nat) : Option Nat :=
  a.map (· % k)

/-- JS `a >= k` for a possibly-NaN `a` and a literal `k`: `NaN >= k` is false. -/
def jsGeC (a : Option Nat) (k : Nat) : Bool :=
  match a with
  | some x => k ≤ x
  | none => false

/-- JS `a >= b` where either side may be `NaN`; any comparison with `NaN` is
false. -/
def jsGe (a b : Option Nat) : Bool :=
  match a, b with
  | some x, some y => y ≤ x
  | _, _ => false

/-- `String(n)` for a JS number that may be `NaN`. -/
def jsNumToString (a : Option Nat) : String :=
  match a with
  | some x => toString x
  | none => "NaN"

/-- `s.padStart(2, '0')`. -/
def padStart2 (s : String) : String :=
  if s.data.length < 2 then
    String.mk (List.replicate (2 - s.data.length) '0') ++ s
  else s

/-- `a || b` on JS strings where `a` may be `null`/`undefined`: the left side
wins exactly when it is truthy (present and non-empty). -/
def jsOr (a : Option String) (b : String) : String :=
  match a with
  | none => b
  | some s => if s = "" then b else s

/-- Truthiness test for an optional string parameter (`!x` in JS). -/
def jsStrFalsy (a : Option String) : Bool :=
  match a with
  | none => true
  | some s => s = ""

/-! ## Time helpers (`getTomorrow`, `getDayOfWeek`, `getDayColumn`,
`parseGtfsTime`, `timeToSeconds`, `formatDateLabel` of `arrivals.js`) -/

/-- Leap-year test of the Gregorian calendar (what `new Date` implements). -/
def isLeapYear (y : Nat) : Bool :=
  y % 4 = 0 && (y % 100 ≠ 0 || y % 400 = 0)

/-- Days in a month of the Gregorian calendar. -/
def daysInMonth (y m : Nat) : Nat :=
  if m = 2 then (if isLeapYear y then 29 else 28)
  else if m = 4 ∨ m = 6 ∨ m = 9 ∨ m = 11 then 30
  else 31

/-- `String(n).padStart(2, '0')` for month/day numbers. -/
def pad2 (n : Nat) : String :=
  padStart2 (toString n)

/-- `getTomorrow(todayStr)`: the next calendar date in `YYYYMMDD` form.  The
source builds a `Date` from the three substrings and adds one day; for the
valid dates produced by the Tallinn clock this is Gregorian successor
arithmetic, embedded here directly (the `parseInt` fallback value `0` is
unreachable for those inputs). -/
def getTomorrow (todayStr : String) : String :=
  let y := (jsParseInt (strTake todayStr 4)).getD 0
  let m := (jsParseInt (strTake (strDrop todayStr 4) 2)).getD 0
  let d := (jsParseInt (strTake (strDrop todayStr 6) 2)).getD 0
  if d + 1 ≤ daysInMonth y m then toString y ++ pad2 m ++ pad2 (d + 1)
  else if m + 1 ≤ 12 then toString y ++ pad2 (m + 1) ++ pad2 1
  else toString (y + 1) ++ pad2 1 ++ pad2 1

/-- `getDayOfWeek(dateStr)`: day of week (0 = Sunday) of a `YYYYMMDD` date,
via Zeller's congruence (what `new Date(y, m-1, d).getDay()` computes on valid
dates). -/
def getDayOfWeek (dateStr : String) : Fin 7 :=
  let y := (jsParseInt (strTake dateStr 4)).getD 0
  let m := (jsParseInt (strTake (strDrop dateStr 4) 2)).getD 0
  let d := (jsParseInt (strTake (strDrop dateStr 6) 2)).getD 0
  let Y := if m < 3 then y - 1 else y
  let M := if m < 3 then m + 12 else m
  let K := Y % 100
  let J := Y / 100
  let h := (d + 13 * (M + 1) / 5 + K + K / 4 + J / 4 + 5 * J) % 7
  ⟨(h + 6) % 7, Nat.mod_lt _ (by omega)⟩

/-- A row of the `calendar` table (weekly service recurrence). -/
structure CalendarRow where
  service_id : String
  monday : Nat
  tuesday : Nat
  wednesday : Nat
  thursday : Nat
  friday : Nat
  saturday : Nat
  sunday : Nat
  start_date : String
  end_date : String
deriving DecidableEq

/-- A row of the `calendar_dates` table (dated exception). -/
structure CalendarDateRow where
  service_id : String
  date : String
  exception_type : Nat
deriving DecidableEq

/-- `getDayColumn(dayOfWeek)` composed with reading that column of a calendar
row: the weekly flag the SQL condition `c.<column> = 1` inspects. -/
def getDayColumn (d : Fin 7) (c : CalendarRow) : Nat :=
  match d with
  | ⟨0, _⟩ => c.sunday
  | ⟨1, _⟩ => c.monday
  | ⟨2, _⟩ => c.tuesday
  | ⟨3, _⟩ => c.wednesday
  | ⟨4, _⟩ => c.thursday
  | ⟨5, _⟩ => c.friday
  | ⟨6, _⟩ => c.saturday
  | ⟨n + 7, h⟩ => absurd h (by omega)

/-- Result object of `parseGtfsTime`. -/
structure GtfsTime where
  hours : Option Nat
  minutes : Option Nat
  seconds : Option Nat
  totalSeconds : Option Nat
  isNextDay : Bool
  normalizedHours : Option Nat
  display : String
deriving DecidableEq

/-- `parseGtfsTime(timeStr)`: split on `:`, `parseInt` each part (missing or
empty parts default to `0`), and derive total seconds, the past-midnight flag
(`hours >= 24`) and the `HH:MM` display string.  A `null` or empty input gives
`null`; any other string gives an object whose numeric fields may be `NaN`. -/
def parseGtfsTime (timeStr : Option String) : Option GtfsTime :=
  match timeStr with
  | none => none
  | some ts =>
    if ts = "" then none
    else
      let parts := jsSplitColon ts
      let hours := jsPart (parts.get? 0)
      let minutes := jsPart (parts.get? 1)
      let seconds := jsPart (parts.get? 2)
      some {
        hours := hours
        minutes := minutes
        seconds := seconds
        totalSeconds := jsAdd (jsAdd (jsMulC hours 3600) (jsMulC minutes 60)) seconds
        isNextDay := jsGeC hours 24
        normalizedHours := jsModC hours 24
        display := padStart2 (jsNumToString (jsModC hours 24)) ++ ":" ++
          padStart2 (jsNumToString minutes) }

/-- `timeToSeconds(timeStr)` for the current clock string `HH:MM:SS`. -/
def timeToSeconds (timeStr : String) : Option Nat :=
  let parts := jsSplitColon timeStr
  let p0 := match parts.get? 0 with
    | none => none
    | some s => jsParseInt s
  let p1 := match parts.get? 1 with
    | none => none
    | some s => jsParseInt s
  jsAdd (jsAdd (jsMulC p0 3600) (jsMulC p1 60)) (jsPart (parts.get? 2))

/-- `formatDateLabel(dateStr, todayStr, tomorrowStr)`: Estonian labels for
today and tomorrow, and a defensive `DD.MM` rendering for any other date. -/
def formatDateLabel (dateStr todayStr tomorrowStr : String) : String :=
  if dateStr = todayStr then "TÃ¤na"
  else if dateStr = tomorrowStr then "Homme"
  else strTake (strDrop dateStr 6) 2 ++ "." ++ strTake (strDrop dateStr 4) 2

/-! ## Data model (the GTFS tables read by the handler) -/

/-- A row of the `stops` table (columns selected by the handler). -/
structure Stop where
  stop_id : String
  stop_name : String
  stop_code : Option String
  stop_lat : Option String
  stop_lon : Option String
deriving DecidableEq

/-- A row of the `routes` table (columns used by the handler). -/
structure Route where
  route_id : String
  route_short_name : Option String
  route_long_name : Option String
deriving DecidableEq

/-- A row of the `trips` table (columns used by the handler). -/
structure Trip where
  trip_id : String
  route_id : String
  service_id : String
  trip_headsign : Option String
  direction_id : Option Nat
deriving DecidableEq

/-- A row of the `stop_times` table (columns used by the handler). -/
structure StopTime where
  trip_id : String
  stop_id : String
  arrival_time : Option String
  departure_time : Option String
deriving DecidableEq

/-- The relational store the handler queries. -/
structure Db where
  stops : List Stop
  routes : List Route
  trips : List Trip
  stop_times : List StopTime
  calendar : List CalendarRow
  calendar_dates : List CalendarDateRow
deriving DecidableEq

/-- A row of the result set of `todayArrivalsSql` / `tomorrowArrivalsSql`
(the selected columns; `c.service_id` is `NULL` when the service has no
`calendar` row, because of the `LEFT JOIN`). -/
structure QueryRow where
  arrival_time : Option String
  departure_time : Option String
  trip_id : String
  trip_headsign : Option String
  direction_id : Option Nat
  route_short_name : Option String
  route_long_name : Option String
  service_id : Option String
deriving DecidableEq

/-- The activation condition of `todayArrivalsSql` / `tomorrowArrivalsSql`:

`(c.<day> = 1 AND c.start_date <= d AND c.end_date >= d AND
  (cd.exception_type IS NULL OR cd.exception_type != 2)) OR
 cd.exception_type = 1`

evaluated under SQL three-valued logic, where `cal`/`cd` are the (at most one
each) left-joined `calendar` and `calendar_dates` rows of the trip's
service. -/
def calActive (cal : Option CalendarRow) (cd : Option CalendarDateRow)
    (day : Fin 7) (d : String) : Bool :=
  (match cal with
   | some c =>
     (getDayColumn day c == 1) && strLE c.start_date d &&
       strLE d c.end_date &&
       (match cd with
        | none => true
        | some e => e.exception_type != 2)
   | none => false) ||
  (match cd with
   | some e => e.exception_type == 1
   | none => false)

/-- Ascending string order on the `arrival_time` column, `NULL` first (the
`ORDER BY st.arrival_time ASC` clause). -/
def rowLE (r1 r2 : QueryRow) : Prop :=
  (match r1.arrival_time, r2.arrival_time with
   | none, _ => true
   | some _, none => false
   | some a, some b => strLE a b) = true

instance : DecidableRel rowLE := fun r1 r2 => by
  unfold rowLE
  infer_instance

/-- The arrivals query (`todayArrivalsSql` and `tomorrowArrivalsSql` are the
same query shape, parameterised by the date `d` and its weekday column):
join `stop_times`, `trips` and `routes`, left-join the service's `calendar`
row and its `calendar_dates` exception for `d`, keep rows passing
`calActive`, select `DISTINCT` and order by `arrival_time`. -/
def arrivalsQuery (db : Db) (stopId : String) (routeIds : List String)
    (day : Fin 7) (d : String) : List QueryRow :=
  let joined := db.stop_times.flatMap fun st =>
    if st.stop_id = stopId then
      db.trips.flatMap fun t =>
        if st.trip_id = t.trip_id then
          db.routes.flatMap fun r =>
            if t.route_id = r.route_id ∧ r.route_id ∈ routeIds then
              let cal := db.calendar.find? fun c => c.service_id == t.service_id
              let cd := db.calendar_dates.find? fun e =>
                e.service_id == t.service_id && e.date == d
              if calActive cal cd day d then
                [{ arrival_time := st.arrival_time
                   departure_time := st.departure_time
                   trip_id := t.trip_id
                   trip_headsign := t.trip_headsign
                   direction_id := t.direction_id
                   route_short_name := r.route_short_name
                   route_long_name := r.route_long_name
                   service_id := cal.map (·.service_id) }]
              else []
            else []
        else []
    else []
  List.insertionSort rowLE joined.dedup

/-- An element of the in-memory `arrivals` array the handler accumulates. -/
structure Entry where
  time : String
  arrival_time_raw : Option String
  totalSeconds : Option Nat
  date : String
  trip_headsign : Option String
  direction_id : Option Nat
  route_short_name : Option String
  route_long_name : Option String
  isFromPreviousDayService : Bool
deriving DecidableEq

/-- The body of the today loop for one query row: `null` parses are skipped;
a past-midnight time (`isNextDay`) is pushed with tomorrow's display date and
its raw `totalSeconds` as sort key; otherwise the row is pushed exactly when
`totalSeconds >= currentTimeSeconds`. -/
def processTodayRow (today tomorrow : String) (now : Option Nat)
    (arr : QueryRow) : Option Entry :=
  match parseGtfsTime arr.arrival_time with
  | none => none
  | some parsed =>
    if parsed.isNextDay then
      some { time := parsed.display
             arrival_time_raw := arr.arrival_time
             totalSeconds := parsed.totalSeconds
             date := tomorrow
             trip_headsign := arr.trip_headsign
             direction_id := arr.direction_id
             route_short_name := arr.route_short_name
             route_long_name := arr.route_long_name
             isFromPreviousDayService := false }
    else if jsGe parsed.totalSeconds now then
      some { time := parsed.display
             arrival_time_raw := arr.arrival_time
             totalSeconds := parsed.totalSeconds
             date := today
             trip_headsign := arr.trip_headsign
             direction_id := arr.direction_id
             route_short_name := arr.route_short_name
             route_long_name := arr.route_long_name
             isFromPreviousDayService := false }
    else none

/-- The body of the tomorrow loop for one query row: `null` parses are
skipped, past-midnight times are skipped (third calendar day), and every other
row is pushed with sort key `totalSeconds + 86400` and tomorrow's date. -/
def processTomorrowRow (tomorrow : String) (arr : QueryRow) : Option Entry :=
  match parseGtfsTime arr.arrival_time with
  | none => none
  | some parsed =>
    if parsed.isNextDay then none
    else
      some { time := parsed.display
             arrival_time_raw := arr.arrival_time
             totalSeconds := jsAdd parsed.totalSeconds (some 86400)
             date := tomorrow
             trip_headsign := arr.trip_headsign
             direction_id := arr.direction_id
             route_short_name := arr.route_short_name
             route_long_name := arr.route_long_name
             isFromPreviousDayService := false }

/-- The sort relation of `arrivals.sort((a, b) => a.totalSeconds -
b.totalSeconds)`: the comparator value for a `NaN` key is treated as `0` by
the JS sort, so a `NaN` key compares as equal to everything. -/
def numLE (a b : Option Nat) : Bool :=
  match a, b with
  | some x, some y => x ≤ y
  | _, _ => true

/-- `numLE` lifted to entries (the comparator applied to the sort keys). -/
def entryLE (a b : Entry) : Prop :=
  numLE a.totalSeconds b.totalSeconds = true

instance : DecidableRel entryLE := fun a b => by
  unfold entryLE
  infer_instance

/-- The today pass: query today's active rows and run the today loop. -/
def todayEntriesOf (db : Db) (stopId : String) (routeIds : List String)
    (today tomorrow : String) (d1 : Fin 7) (now : Option Nat) : List Entry :=
  (arrivalsQuery db stopId routeIds d1 today).filterMap
    (processTodayRow today tomorrow now)

/-- The tomorrow pass: query tomorrow's active rows and run the tomorrow
loop. -/
def tomorrowEntriesOf (db : Db) (stopId : String) (routeIds : List String)
    (tomorrow : String) (d2 : Fin 7) : List Entry :=
  (arrivalsQuery db stopId routeIds d2 tomorrow).filterMap
    (processTomorrowRow tomorrow)

/-- The `arrivals` array after both loops: the tomorrow pass runs only when
the today pass produced fewer than 5 entries. -/
def includedEntries (db : Db) (stopId : String) (routeIds : List String)
    (today tomorrow : String) (d1 d2 : Fin 7) (now : Option Nat) :
    List Entry :=
  let te := todayEntriesOf db stopId routeIds today tomorrow d1 now
  if te.length < 5 then te ++ tomorrowEntriesOf db stopId routeIds tomorrow d2
  else te

/-- `arrivals.sort(...)` followed by `.slice(0, 5)`. -/
def nextArrivalsOf (db : Db) (stopId : String) (routeIds : List String)
    (today tomorrow : String) (d1 d2 : Fin 7) (now : Option Nat) :
    List Entry :=
  (List.insertionSort entryLE
    (includedEntries db stopId routeIds today tomorrow d1 d2 now)).take 5

/-- An element of the final JSON `data` array. -/
structure OutEntry where
  time : String
  dateLabel : String
  date : String
  headsign : String
  direction : Option Nat
  route : Option String
deriving DecidableEq

/-- The final mapping of one entry into the response shape, including the
`trip_headsign || route_long_name || ''` fallback chain. -/
def formatEntry (today tomorrow : String) (arr : Entry) : OutEntry :=
  { time := arr.time
    dateLabel := formatDateLabel arr.date today tomorrow
    date := arr.date
    headsign := jsOr arr.trip_headsign (jsOr arr.route_long_name "")
    direction := arr.direction_id
    route := arr.route_short_name }

/-- Query both days (tomorrow only when underfilled), sort, truncate to 5 and
format: the part of the handler after the stop and route lookups. -/
def assembleArrivals (db : Db) (stopId : String) (routeIds : List String)
    (today tomorrow : String) (d1 d2 : Fin 7) (now : Option Nat) :
    List OutEntry :=
  (nextArrivalsOf db stopId routeIds today tomorrow d1 d2 now).map
    (formatEntry today tomorrow)

/-- The current-instant inputs the handler reads from `getTallinnTime()`. -/
structure TallinnTime where
  date : String
  dateFormatted : String
  time : String
  dayOfWeek : Fin 7
deriving DecidableEq

/-- The success payload of the handler's JSON response. -/
structure SuccessPayload where
  stop : Stop
  route : String
  currentTime : String
  currentDate : String
  count : Nat
  data : List OutEntry
deriving DecidableEq

/-- Outcome of one request: an HTTP error status with its message, or the
success payload. -/
inductive HandlerResult where
  | error (status : Nat) (message : String)
  | success (payload : SuccessPayload)
deriving DecidableEq

/-- The GTFS arrivals handler (`router.get('/')` of the DB-backed
`arrivals.js`): parameter check, stop lookup, route lookup, two-day arrival
assembly, response shaping.  A request parameter absent from the query string
behaves like the empty string (both are falsy in the `!stopId || !route`
check). -/
def runArrivals (db : Db) (stopId route : String) (tt : TallinnTime) :
    HandlerResult :=
  if stopId = "" ∨ route = "" then
    .error 400 "stopId and route parameters are required"
  else
    let today := tt.date
    let tomorrow := getTomorrow today
    let currentTimeSeconds := timeToSeconds tt.time
    match db.stops.filter (fun s => s.stop_id == stopId) with
    | [] => .error 404 "Stop not found"
    | stop :: _ =>
      match db.routes.filter (fun r => r.route_short_name == some route) with
      | [] => .error 404 "Route not found"
      | r0 :: rrest =>
        let routeIds := (r0 :: rrest).map (·.route_id)
        let result := assembleArrivals db stopId routeIds today tomorrow
          tt.dayOfWeek (getDayOfWeek tomorrow) currentTimeSeconds
        .success { stop := stop
                   route := route
                   currentTime := tt.time
                   currentDate := tt.dateFormatted
                   count := result.length
                   data := result }

/-- Modelled from the spec: the variant of the assembly that always fetches
and merges both days (no early exit on a full today pass), used to compare
the early-exit optimization against, as §4.4 of the spec requires. -/
def assembleArrivalsAlways (db : Db) (stopId : String)
    (routeIds : List String) (today tomorrow : String) (d1 d2 : Fin 7)
    (now : Option Nat) : List OutEntry :=
  ((List.insertionSort entryLE
    (todayEntriesOf db stopId routeIds today tomorrow d1 now ++
      tomorrowEntriesOf db stopId routeIds tomorrow d2)).take 5).map
    (formatEntry today tomorrow)

/-- Modelled from the spec: the handler with the always-fetch-both-days
assembly substituted for the early-exit one. -/
def runArrivalsAlways (db : Db) (stopId route : String) (tt : TallinnTime) :
    HandlerResult :=
  if stopId = "" ∨ route = "" then
    .error 400 "stopId and route parameters are required"
  else
    let today := tt.date
    let tomorrow := getTomorrow today
    let currentTimeSeconds := timeToSeconds tt.time
    match db.stops.filter (fun s => s.stop_id == stopId) with
    | [] => .error 404 "Stop not found"
    | stop :: _ =>
      match db.routes.filter (fun r => r.route_short_name == some route) with
      | [] => .error 404 "Route not found"
      | r0 :: rrest =>
        let routeIds := (r0 :: rrest).map (·.route_id)
        let result := assembleArrivalsAlways db stopId routeIds today tomorrow
          tt.dayOfWeek (getDayOfWeek tomorrow) currentTimeSeconds
        .success { stop := stop
                   route := route
                   currentTime := tt.time
                   currentDate := tt.dateFormatted
                   count := result.length
                   data := result }

/-- Observer: the `data` array of a response, empty for error responses. -/
def resultData (res : HandlerResult) : List OutEntry :=
  match res with
  | .success p => p.data
  | .error _ _ => []

/-! ## Concrete store states used as witnesses and counterexamples -/

/-- One stop, one route, one trip whose service runs on 2025-10-10 by a
type-1 exception only, with a regular and a past-midnight stop time. -/
def db1 : Db :=
  { stops := [{ stop_id := "S", stop_name := "Keskus", stop_code := some "0001",
                stop_lat := some "59.4", stop_lon := some "24.7" }]
    routes := [{ route_id := "R1", route_short_name := some "10",
                 route_long_name := some "Pikk liin" }]
    trips := [{ trip_id := "T1", route_id := "R1", service_id := "sv",
                trip_headsign := some "Kesklinn", direction_id := some 0 }]
    stop_times := [
      { trip_id := "T1", stop_id := "S", arrival_time := some "25:10:00",
        departure_time := some "25:10:00" },
      { trip_id := "T1", stop_id := "S", arrival_time := some "14:35:00",
        departure_time := some "14:35:00" }]
    calendar := []
    calendar_dates := [{ service_id := "sv", date := "20251010",
                         exception_type := 1 }] }

/-- Clock for `db1`: 2025-10-10 (a Friday), 14:00:00. -/
def tt1 : TallinnTime :=
  { date := "20251010", dateFormatted := "2025-10-10", time := "14:00:00",
    dayOfWeek := 5 }

/-- Five arrivals active today (one of them past midnight, `26:00:00`) and one
arrival (`01:00:00`) active tomorrow, at 09:00 today.  The today pass alone
already fills the 5 slots. -/
def dbC3 : Db :=
  { stops := [{ stop_id := "S", stop_name := "Keskus", stop_code := none,
                stop_lat := none, stop_lon := none }]
    routes := [{ route_id := "R1", route_short_name := some "10",
                 route_long_name := some "Pikk liin" }]
    trips := [
      { trip_id := "TA", route_id := "R1", service_id := "svA",
        trip_headsign := some "Kesklinn", direction_id := some 0 },
      { trip_id := "TB", route_id := "R1", service_id := "svB",
        trip_headsign := some "Kesklinn", direction_id := some 0 }]
    stop_times := [
      { trip_id := "TA", stop_id := "S", arrival_time := some "10:00:00",
        departure_time := some "10:00:00" },
      { trip_id := "TA", stop_id := "S", arrival_time := some "11:00:00",
        departure_time := some "11:00:00" },
      { trip_id := "TA", stop_id := "S", arrival_time := some "12:00:00",
        departure_time := some "12:00:00" },
      { trip_id := "TA", stop_id := "S", arrival_time := some "13:00:00",
        departure_time := some "13:00:00" },
      { trip_id := "TA", stop_id := "S", arrival_time := some "26:00:00",
        departure_time := some "26:00:00" },
      { trip_id := "TB", stop_id := "S", arrival_time := some "01:00:00",
        departure_time := some "01:00:00" }]
    calendar := []
    calendar_dates := [
      { service_id := "svA", date := "20251010", exception_type := 1 },
      { service_id := "svB", date := "20251011", exception_type := 1 }] }

/-- Clock for `dbC3`: 2025-10-10, 09:00:00. -/
def ttC3 : TallinnTime :=
  { date := "20251010", dateFormatted := "2025-10-10", time := "09:00:00",
    dayOfWeek := 5 }

/-- A store whose only stop time has the unparseable `arrival_time` string
`"abc"`, on a service active only tomorrow (type-1 exception). -/
def dbC6 : Db :=
  { stops := [{ stop_id := "S", stop_name := "Keskus", stop_code := none,
                stop_lat := none, stop_lon := none }]
    routes := [{ route_id := "R1", route_short_name := some "10",
                 route_long_name := some "Pikk liin" }]
    trips := [{ trip_id := "T1", route_id := "R1", service_id := "sv",
                trip_headsign := none, direction_id := none }]
    stop_times := [{ trip_id := "T1", stop_id := "S",
                     arrival_time := some "abc", departure_time := none }]
    calendar := []
    calendar_dates := [{ service_id := "sv", date := "20251011",
                         exception_type := 1 }] }

/-- Clock for `dbC6`: 2025-10-10, 12:00:00. -/
def ttC6 : TallinnTime :=
  { date := "20251010", dateFormatted := "2025-10-10", time := "12:00:00",
    dayOfWeek := 5 }

/-- A store whose only trip has the non-null but empty `trip_headsign` and a
non-empty `route_long_name`. -/
def dbC8 : Db :=
  { stops := [{ stop_id := "S", stop_name := "Keskus", stop_code := none,
                stop_lat := none, stop_lon := none }]
    routes := [{ route_id := "R1", route_short_name := some "10",
                 route_long_name := some "Pikk liin" }]
    trips := [{ trip_id := "T1", route_id := "R1", service_id := "sv",
                trip_headsign := some "", direction_id := some 1 }]
    stop_times := [{ trip_id := "T1", stop_id := "S",
                     arrival_time := some "23:00:00",
                     departure_time := some "23:00:00" }]
    calendar := []
    calendar_dates := [{ service_id := "sv", date := "20251010",
                         exception_type := 1 }] }

/-- Clock for `dbC8`: 2025-10-10, 10:00:00. -/
def ttC8 : TallinnTime :=
  { date := "20251010", dateFormatted := "2025-10-10", time := "10:00:00",
    dayOfWeek := 5 }

/-- The empty store. -/
def dbEmpty : Db :=
  { stops := [], routes := [], trips := [], stop_times := [], calendar := [],
    calendar_dates := [] }

/-- A stop and a route that both exist, with no stop times at all. -/
def dbC7 : Db :=
  { stops := [{ stop_id := "S", stop_name := "Keskus", stop_code := none,
                stop_lat := none, stop_lon := none }]
    routes := [{ route_id := "R1", route_short_name := some "10",
                 route_long_name := some "Pikk liin" }]
    trips := []
    stop_times := []
    calendar := []
    calendar_dates := [] }

end GtfsArrivals

namespace TallinnNearest

/-! ## The nearest-stop helper of `tallinnApi.js`

`getDistance` (the haversine formula with Earth radius 6371 km) and
`findNearestStop` operate on JS floating-point numbers; they are embedded over
`ℝ`, with `NaN` modelled as `none` (coordinates parsed from a missing CSV
field are `NaN`, and every arithmetic operation propagates it). -/

/-- A JS number: a real, or `NaN`. -/
abbrev NReal := Option ℝ

/-- NaN-propagating addition. -/
noncomputable def nAdd (a b : NReal) : NReal :=
  match a, b with
  | some x, some y => some (x + y)
  | _, _ => none

/-- NaN-propagating subtraction. -/
noncomputable def nSub (a b : NReal) : NReal :=
  match a, b with
  | some x, some y => some (x - y)
  | _, _ => none

/-- NaN-propagating multiplication. -/
noncomputable def nMul (a b : NReal) : NReal :=
  match a, b with
  | some x, some y => some (x * y)
  | _, _ => none

/-- `Math.sin`. -/
noncomputable def nSin (a : NReal) : NReal :=
  a.map Real.sin

/-- `Math.cos`. -/
noncomputable def nCos (a : NReal) : NReal :=
  a.map Real.cos

/-- `Math.sqrt`: `NaN` on negative input. -/
noncomputable def nSqrt (a : NReal) : NReal :=
  a.bind fun v => if v < 0 then none else some (Real.sqrt v)

/-- `x / 2`. -/
noncomputable def nHalf (a : NReal) : NReal :=
  a.map fun v => v / 2

/-- `toRad(deg) = deg * Math.PI / 180`. -/
noncomputable def toRad (a : NReal) : NReal :=
  a.map fun d => d * Real.pi / 180

/-- `Math.atan2(y, x)` on reals (signed zeros ignored). -/
noncomputable def atan2 (y x : ℝ) : ℝ :=
  if 0 < x then Real.arctan (y / x)
  else if x < 0 then
    (if 0 ≤ y then Real.arctan (y / x) + Real.pi
     else Real.arctan (y / x) - Real.pi)
  else if 0 < y then Real.pi / 2
  else if y < 0 then -(Real.pi / 2)
  else 0

/-- `Math.atan2` on JS numbers. -/
noncomputable def nAtan2 (y x : NReal) : NReal :=
  match y, x with
  | some yv, some xv => some (atan2 yv xv)
  | _, _ => none

/-- `Math.round` (half rounds up). -/
noncomputable def jsRound (x : ℝ) : ℝ :=
  ((⌊x + 1 / 2⌋ : ℤ) : ℝ)

/-- `getDistance(lat1, lng1, lat2, lng2)`: the haversine great-circle
distance with Earth radius `R = 6371` km. -/
noncomputable def getDistance (lat1 lng1 lat2 lng2 : NReal) : NReal :=
  let dLat := toRad (nSub lat2 lat1)
  let dLng := toRad (nSub lng2 lng1)
  let a := nAdd (nMul (nSin (nHalf dLat)) (nSin (nHalf dLat)))
    (nMul (nMul (nCos (toRad lat1)) (nCos (toRad lat2)))
      (nMul (nSin (nHalf dLng)) (nSin (nHalf dLng))))
  let c := nMul (some 2) (nAtan2 (nSqrt a) (nSqrt (nSub (some 1) a)))
  nMul (some 6371) c

/-- A stop of the Tallinn stops list (the fields `findNearestStop` reads). -/
structure TStop where
  id : String
  lat : NReal
  lng : NReal
  name : String

/-- The value `findNearestStop` returns: the stop spread together with its
rounded `distance_km`. -/
structure NearestHit where
  stop : TStop
  distance_km : NReal

/-- One iteration of the `findNearestStop` loop over `(nearest, minDistance)`
(`minDistance` starts at `Infinity`, modelled as `none` in the second
component; a `NaN` distance fails the `distance < minDistance` test and
leaves the state unchanged). -/
noncomputable def nearestStep (lat lng : NReal)
    (st : Option NearestHit × Option ℝ) (stop : TStop) :
    Option NearestHit × Option ℝ :=
  match getDistance lat lng stop.lat stop.lng, st with
  | none, _ => st
  | some dv, (_, none) =>
    (some { stop := stop, distance_km := some (jsRound (dv * 100) / 100) },
      some dv)
  | some dv, (_, some m) =>
    if dv < m then
      (some { stop := stop, distance_km := some (jsRound (dv * 100) / 100) },
        some dv)
    else st

/-- `findNearestStop(lat, lng)`: fold the loop over the stops list and return
the nearest stop found (or `null`). -/
noncomputable def findNearestStop (lat lng : NReal) (stops : List TStop) :
    Option NearestHit :=
  (stops.foldl (nearestStep lat lng) (none, none)).1

/-- A stop with ordinary coordinates. -/
def stopA : TStop :=
  { id := "A", lat := some 10, lng := some 0, name := "Kivi" }

/-- A stop at exactly `(0, 0)` — invalid coordinates per the data model. -/
def stopZ : TStop :=
  { id := "Z", lat := some 0, lng := some 0, name := "Null" }

end TallinnNearest

namespace GtfsArrivals

/-! ## Claim theorems -/

/-- **C1.** The activation condition of the arrivals queries holds for a
service and a date `d` if and only if a type-1 calendar exception for `(S, d)`
exists, or (no type-2 exception for `(S, d)` exists, the weekly flag for `d`'s
weekday is set, and `start_date ≤ d ≤ end_date`); in particular a service with
no `calendar` row but a type-1 exception for `d` is active. -/
theorem c1_service_activation :
    (∀ (cal : Option CalendarRow) (cd : Option CalendarDateRow) (day : Fin 7)
        (d : String),
      calActive cal cd day d = true ↔
        ((∃ e, cd = some e ∧ e.exception_type = 1) ∨
         ((∀ e, cd = some e → e.exception_type ≠ 2) ∧
          ∃ c, cal = some c ∧ getDayColumn day c = 1 ∧
            strLE c.start_date d = true ∧ strLE d c.end_date = true))) ∧
    (∀ (day : Fin 7) (d sid : String),
      calActive none
        (some { service_id := sid, date := d, exception_type := 1 }) day d
        = true) := by
  constructor
  · intro cal cd day d
    cases cal <;> cases cd <;> simp [calActive] <;> tauto
  · intro day d sid
    simp [calActive]

/-- **C2.** For a today-pass query row whose stored time parses as a
well-formed `HH:MM:SS` triple: a past-midnight time (total seconds at least
86400, equivalently hours at least 24) is included with display time
`totalSeconds mod 86400` formatted `HH:MM`, display date tomorrow and the raw
total seconds as sort key, regardless of the current time; any other time is
included, with display date today and the total seconds as sort key, exactly
when it is at or after the current second. -/
theorem c2_today_processing
    (arr : QueryRow) (p : GtfsTime) (h m s : Nat) (today tomorrow : String)
    (now : Option Nat)
    (hp : parseGtfsTime arr.arrival_time = some p)
    (hh : p.hours = some h) (hm : p.minutes = some m) (hs : p.seconds = some s)
    (hm60 : m < 60) (hs60 : s < 60) :
    (86400 ≤ h * 3600 + m * 60 + s →
      processTodayRow today tomorrow now arr = some
        { time :=
            padStart2 (toString ((h * 3600 + m * 60 + s) % 86400 / 3600)) ++
              ":" ++
              padStart2 (toString ((h * 3600 + m * 60 + s) % 86400 % 3600 / 60))
          arrival_time_raw := arr.arrival_time
          totalSeconds := some (h * 3600 + m * 60 + s)
          date := tomorrow
          trip_headsign := arr.trip_headsign
          direction_id := arr.direction_id
          route_short_name := arr.route_short_name
          route_long_name := arr.route_long_name
          isFromPreviousDayService := false }) ∧
    (h * 3600 + m * 60 + s < 86400 → ∀ n, now = some n →
      ((n ≤ h * 3600 + m * 60 + s →
        processTodayRow today tomorrow now arr = some
          { time :=
              padStart2 (toString ((h * 3600 + m * 60 + s) % 86400 / 3600)) ++
                ":" ++
                padStart2
                  (toString ((h * 3600 + m * 60 + s) % 86400 % 3600 / 60))
            arrival_time_raw := arr.arrival_time
            totalSeconds := some (h * 3600 + m * 60 + s)
            date := today
            trip_headsign := arr.trip_headsign
            direction_id := arr.direction_id
            route_short_name := arr.route_short_name
            route_long_name := arr.route_long_name
            isFromPreviousDayService := false }) ∧
       (h * 3600 + m * 60 + s < n →
        processTodayRow today tomorrow now arr = none))) := by
  have e1 : h % 24 = (h * 3600 + m * 60 + s) % 86400 / 3600 := by omega
  have e2 : m = (h * 3600 + m * 60 + s) % 86400 % 3600 / 60 := by omega
  cases harr : arr.arrival_time with
  | none => rw [harr] at hp; exact absurd hp (by simp [parseGtfsTime])
  | some ts =>
    rw [harr] at hp
    by_cases hts : ts = ""
    · subst hts; simp [parseGtfsTime] at hp
    · rw [parseGtfsTime] at hp
      rw [if_neg hts] at hp
      injection hp with hp
      subst hp
      dsimp only at hh hm hs
      constructor
      · intro hbig
        have h24 : 24 ≤ h := by omega
        simp only [processTodayRow, harr, parseGtfsTime, if_neg hts]
        rw [hh, hm, hs]
        simp [jsGeC, jsAdd, jsMulC, jsModC, jsNumToString, h24, ← e1, ← e2]
      · intro hsmall n hnow
        have h24 : ¬ (24 ≤ h) := by omega
        subst hnow
        constructor
        · intro hle
          simp only [processTodayRow, harr, parseGtfsTime, if_neg hts]
          rw [hh, hm, hs]
          simp [jsGeC, jsAdd, jsMulC, jsModC, jsNumToString, jsGe, h24,
            ← e1, ← e2, hle]
        · intro hlt
          simp only [processTodayRow, harr, parseGtfsTime, if_neg hts]
          rw [hh, hm, hs]
          simp [jsGeC, jsAdd, jsMulC, jsModC, jsNumToString, jsGe, h24]
          omega

/-- Witness for C2 at the spec's own example `"25:10:00"` with the clock at
14:00:00: the row is included for tomorrow as `"01:10"` with sort key 90600. -/
theorem c2_today_processing_witness :
    86400 ≤ 25 * 3600 + 10 * 60 + 0 ∧
    processTodayRow "20251010" "20251011" (some 50400)
      { arrival_time := some "25:10:00", departure_time := some "25:10:00",
        trip_id := "T1", trip_headsign := some "Kesklinn",
        direction_id := some 0, route_short_name := some "10",
        route_long_name := some "Pikk liin", service_id := none } =
      some { time := "01:10", arrival_time_raw := some "25:10:00",
             totalSeconds := some 90600, date := "20251011",
             trip_headsign := some "Kesklinn", direction_id := some 0,
             route_short_name := some "10",
             route_long_name := some "Pikk liin",
             isFromPreviousDayService := false } := by
  refine ⟨by norm_num, ?_⟩
  have hmain := (c2_today_processing
    { arrival_time := some "25:10:00", departure_time := some "25:10:00",
      trip_id := "T1", trip_headsign := some "Kesklinn",
      direction_id := some 0, route_short_name := some "10",
      route_long_name := some "Pikk liin", service_id := none }
    { hours := some 25, minutes := some 10, seconds := some 0,
      totalSeconds := some 90600, isNextDay := true,
      normalizedHours := some 1, display := "01:10" }
    25 10 0 "20251010" "20251011" (some 50400)
    (by rfl) rfl rfl rfl (by norm_num) (by norm_num)).1 (by norm_num)
  exact hmain

/-! ### Helper lemmas about the arrival sort comparator -/

/-- The comparator relation is connex: when `a` is not placed before `b`,
`b` is placed before `a` (a `NaN` key compares as equal to everything). -/
theorem entryLE_of_not_entryLE {a b : Entry} (h : ¬ entryLE a b) :
    entryLE b a := by
  unfold entryLE numLE at *
  cases ha : a.totalSeconds <;> cases hb : b.totalSeconds <;>
    simp [ha, hb] at * <;> omega

/-- The comparator is transitive through a middle entry with a numeric key. -/
theorem entryLE_trans_good {a b c : Entry}
    (hb : b.totalSeconds.isSome = true)
    (h1 : entryLE a b) (h2 : entryLE b c) : entryLE a c := by
  unfold entryLE numLE at *
  cases ha : a.totalSeconds <;> cases hbv : b.totalSeconds <;>
    cases hc : c.totalSeconds <;> simp [ha, hbv, hc] at * <;> omega

/-- Inserting an element that sorts before every element of `l2` into
`l1 ++ l2` only touches the `l1` part. -/
theorem orderedInsert_append (a : Entry) (l1 l2 : List Entry)
    (h : ∀ b ∈ l2, entryLE a b) :
    List.orderedInsert entryLE a (l1 ++ l2) =
      List.orderedInsert entryLE a l1 ++ l2 := by
  induction l1 with
  | nil =>
    cases l2 with
    | nil => rfl
    | cons c t =>
      have hac : entryLE a c := h c (List.mem_cons_self c t)
      simp [List.orderedInsert, hac]
  | cons b t ih =>
    simp only [List.cons_append, List.orderedInsert]
    by_cases hab : entryLE a b
    · simp [hab]
    · simp [hab, ih]

/-- Sorting a concatenation whose left part entirely sorts before its right
part sorts the two parts independently. -/
theorem insertionSort_append (l1 l2 : List Entry)
    (h : ∀ a ∈ l1, ∀ b ∈ l2, entryLE a b) :
    List.insertionSort entryLE (l1 ++ l2) =
      List.insertionSort entryLE l1 ++ List.insertionSort entryLE l2 := by
  induction l1 with
  | nil => simp
  | cons a t ih =>
    rw [List.cons_append, List.insertionSort, List.insertionSort,
      ih fun x hx b hb => h x (List.mem_cons_of_mem a hx) b hb]
    exact orderedInsert_append a _ _ fun b hb =>
      h a (List.mem_cons_self a t) b ((List.mem_insertionSort entryLE).mp hb)

/-- Ordered insertion preserves sortedness when the list has numeric keys. -/
theorem sorted_orderedInsert_good (a : Entry) (l : List Entry)
    (hg : ∀ x ∈ l, x.totalSeconds.isSome = true)
    (hs : List.Sorted entryLE l) :
    List.Sorted entryLE (List.orderedInsert entryLE a l) := by
  induction l with
  | nil => simp [List.orderedInsert]
  | cons b t ih =>
    rw [List.orderedInsert]
    by_cases hab : entryLE a b
    · rw [if_pos hab, List.sorted_cons]
      refine ⟨?_, hs⟩
      intro x hx
      rcases List.mem_cons.mp hx with rfl | hxt
      · exact hab
      · exact entryLE_trans_good (hg b (List.mem_cons_self b t)) hab
          ((List.sorted_cons.mp hs).1 x hxt)
    · rw [if_neg hab]
      rw [List.sorted_cons] at hs ⊢
      obtain ⟨hb, hst⟩ := hs
      refine ⟨?_, ih (fun x hx => hg x (List.mem_cons_of_mem b hx)) hst⟩
      intro x hx
      rcases (List.mem_orderedInsert entryLE).mp hx with rfl | hxt
      · exact entryLE_of_not_entryLE hab
      · exact hb x hxt

/-- The sort of a list of entries with numeric keys is sorted. -/
theorem sorted_insertionSort_good (l : List Entry)
    (hg : ∀ x ∈ l, x.totalSeconds.isSome = true) :
    List.Sorted entryLE (List.insertionSort entryLE l) := by
  induction l with
  | nil => simp
  | cons a t ih =>
    rw [List.insertionSort]
    exact sorted_orderedInsert_good a _
      (fun x hx =>
        hg x (List.mem_cons_of_mem a ((List.mem_insertionSort entryLE).mp hx)))
      (ih fun x hx => hg x (List.mem_cons_of_mem a hx))

set_option maxHeartbeats 4000000 in
/-- **C3 (counterexample).** The early-exit optimization is *not*
output-equivalent to always fetching both days: with five today arrivals that
include the past-midnight time `26:00:00` and a tomorrow arrival `01:00:00`,
the early-exit resolver emits `02:00` in fifth position while the
always-fetch-both variant emits the earlier `01:00`. -/
theorem c3_early_exit_counterexample :
    (resultData (runArrivals dbC3 "S" "10" ttC3)).map (fun e => e.time) =
      ["10:00", "11:00", "12:00", "13:00", "02:00"] ∧
    (resultData (runArrivalsAlways dbC3 "S" "10" ttC3)).map (fun e => e.time) =
      ["10:00", "11:00", "12:00", "13:00", "01:00"] ∧
    runArrivals dbC3 "S" "10" ttC3 ≠ runArrivalsAlways dbC3 "S" "10" ttC3 :=
  ⟨by decide, by decide, by decide⟩

/-- **C3 (amended).** The early-exit assembly produces the same output as the
always-fetch-both assembly whenever every entry included by the today pass
sorts no later than every entry the tomorrow pass would include — in
particular whenever the today pass includes no past-midnight arrival, since
then every today key is below 86400 and every tomorrow key is at least
86400. -/
theorem c3_early_exit_amended (db : Db) (stopId : String)
    (routeIds : List String) (today tomorrow : String) (d1 d2 : Fin 7)
    (now : Option Nat)
    (h : ∀ a ∈ todayEntriesOf db stopId routeIds today tomorrow d1 now,
      ∀ b ∈ tomorrowEntriesOf db stopId routeIds tomorrow d2, entryLE a b) :
    assembleArrivals db stopId routeIds today tomorrow d1 d2 now =
      assembleArrivalsAlways db stopId routeIds today tomorrow d1 d2 now := by
  unfold assembleArrivals assembleArrivalsAlways nextArrivalsOf includedEntries
  by_cases hlen :
      (todayEntriesOf db stopId routeIds today tomorrow d1 now).length < 5
  · simp only [if_pos hlen]
  · simp only [if_neg hlen]
    rw [insertionSort_append _ _ h, List.take_append_of_le_length]
    rw [(List.perm_insertionSort entryLE _).length_eq]
    omega

/-- Witness for the amended C3 at `db1`'s arguments (the today pass includes
a past-midnight arrival, but the tomorrow pass includes nothing, so the
cross-ordering hypothesis holds vacuously). -/
theorem c3_early_exit_amended_witness :
    assembleArrivals db1 "S" ["R1"] "20251010" "20251011" 5 6 (some 50400) =
      assembleArrivalsAlways db1 "S" ["R1"] "20251010" "20251011" 5 6
        (some 50400) :=
  c3_early_exit_amended db1 "S" ["R1"] "20251010" "20251011" 5 6 (some 50400)
    (by decide)

/-- **C4.** When every included entry has a numeric sort key, the emitted
`arrivals` list is the included set sorted ascending by sort key and truncated
to the first 5: the kept prefix is sorted, together with the dropped rest it
is a permutation of the included set, every kept entry sorts no later than
every dropped one, and its length is `min 5` the included count; moreover
every tomorrow-pass entry carries sort key `totalSeconds + 86400` (hence ranks
after every entry with a smaller key). -/
theorem c4_sort_truncate (db : Db) (stopId : String) (routeIds : List String)
    (today tomorrow : String) (d1 d2 : Fin 7) (now : Option Nat)
    (hg : ∀ x ∈ includedEntries db stopId routeIds today tomorrow d1 d2 now,
      x.totalSeconds.isSome = true) :
    List.Sorted entryLE
      (nextArrivalsOf db stopId routeIds today tomorrow d1 d2 now) ∧
    (∃ rest,
      (nextArrivalsOf db stopId routeIds today tomorrow d1 d2 now ++ rest).Perm
        (includedEntries db stopId routeIds today tomorrow d1 d2 now) ∧
      ∀ a ∈ nextArrivalsOf db stopId routeIds today tomorrow d1 d2 now,
        ∀ b ∈ rest, entryLE a b) ∧
    (nextArrivalsOf db stopId routeIds today tomorrow d1 d2 now).length =
      min 5
        (includedEntries db stopId routeIds today tomorrow d1 d2 now).length ∧
    (∀ (tom : String) (row : QueryRow) (e : Entry),
      processTomorrowRow tom row = some e →
      ∃ p, parseGtfsTime row.arrival_time = some p ∧ p.isNextDay = false ∧
        e.totalSeconds = jsAdd p.totalSeconds (some 86400) ∧ e.date = tom) := by
  have hsorted : List.Sorted entryLE (List.insertionSort entryLE
      (includedEntries db stopId routeIds today tomorrow d1 d2 now)) :=
    sorted_insertionSort_good _ hg
  refine ⟨?_, ⟨(List.insertionSort entryLE
      (includedEntries db stopId routeIds today tomorrow d1 d2 now)).drop 5,
      ?_, ?_⟩, ?_, ?_⟩
  · exact List.Pairwise.sublist (List.take_sublist 5 _) hsorted
  · unfold nextArrivalsOf
    rw [List.take_append_drop]
    exact List.perm_insertionSort entryLE _
  · intro a ha b hb
    unfold nextArrivalsOf at ha
    have hpw : List.Pairwise entryLE
        ((List.insertionSort entryLE (includedEntries db stopId routeIds today
          tomorrow d1 d2 now)).take 5 ++
         (List.insertionSort entryLE (includedEntries db stopId routeIds today
          tomorrow d1 d2 now)).drop 5) := by
      rw [List.take_append_drop]; exact hsorted
    exact (List.pairwise_append.mp hpw).2.2 a ha b hb
  · unfold nextArrivalsOf
    rw [List.length_take, (List.perm_insertionSort entryLE _).length_eq]
  · intro tom row e he
    unfold processTomorrowRow at he
    cases hp : parseGtfsTime row.arrival_time with
    | none => rw [hp] at he; cases he
    | some p =>
      rw [hp] at he
      dsimp only at he
      by_cases hnd : p.isNextDay = true
      · rw [if_pos hnd] at he; cases he
      · rw [if_neg hnd] at he
        refine ⟨p, rfl, by simpa using hnd, ?_, ?_⟩
        · cases he; rfl
        · cases he; rfl

/-- Witness for C4 at `db1`'s arguments: two included entries (keys 52500 and
90600), so the emitted prefix has length `min 5 2 = 2`. -/
theorem c4_sort_truncate_witness :
    (nextArrivalsOf db1 "S" ["R1"] "20251010" "20251011" 5 6
        (some 50400)).length =
      min 5 (includedEntries db1 "S" ["R1"] "20251010" "20251011" 5 6
        (some 50400)).length :=
  (c4_sort_truncate db1 "S" ["R1"] "20251010" "20251011" 5 6 (some 50400)
    (by decide)).2.2.1

/-! ### Display-date helpers for the two-day-horizon invariant -/

/-- Every entry the today loop pushes carries today's or tomorrow's date. -/
theorem processTodayRow_date {today tomorrow : String} {now : Option Nat}
    {arr : QueryRow} {e : Entry}
    (h : processTodayRow today tomorrow now arr = some e) :
    e.date = today ∨ e.date = tomorrow := by
  unfold processTodayRow at h
  cases hp : parseGtfsTime arr.arrival_time with
  | none => rw [hp] at h; cases h
  | some p =>
    rw [hp] at h
    dsimp only at h
    by_cases hnd : p.isNextDay = true
    · rw [if_pos hnd] at h; cases h; right; rfl
    · rw [if_neg hnd] at h
      by_cases hge : jsGe p.totalSeconds now = true
      · rw [if_pos hge] at h; cases h; left; rfl
      · rw [if_neg hge] at h; cases h

/-- Every entry the tomorrow loop pushes carries tomorrow's date. -/
theorem processTomorrowRow_date {tomorrow : String} {arr : QueryRow}
    {e : Entry} (h : processTomorrowRow tomorrow arr = some e) :
    e.date = tomorrow := by
  unfold processTomorrowRow at h
  cases hp : parseGtfsTime arr.arrival_time with
  | none => rw [hp] at h; cases h
  | some p =>
    rw [hp] at h
    dsimp only at h
    by_cases hnd : p.isNextDay = true
    · rw [if_pos hnd] at h; cases h
    · rw [if_neg hnd] at h; cases h; rfl

/-- Every formatted output entry of the assembly carries today's or tomorrow's
date, and hence one of the two in-horizon labels. -/
theorem mem_assembleArrivals_date (db : Db) (stopId : String)
    (routeIds : List String) (today tomorrow : String) (d1 d2 : Fin 7)
    (now : Option Nat) (e : OutEntry)
    (he : e ∈ assembleArrivals db stopId routeIds today tomorrow d1 d2 now) :
    (e.date = today ∨ e.date = tomorrow) ∧
    (e.dateLabel = "TÃ¤na" ∨ e.dateLabel = "Homme") := by
  obtain ⟨ent, hent, rfl⟩ := List.mem_map.mp he
  have hmem : ent ∈ includedEntries db stopId routeIds today tomorrow d1 d2
      now :=
    (List.mem_insertionSort entryLE).mp (List.mem_of_mem_take hent)
  have hdate : ent.date = today ∨ ent.date = tomorrow := by
    simp only [includedEntries] at hmem
    split at hmem
    · rcases List.mem_append.mp hmem with hm | hm
      · obtain ⟨row, _, hrow⟩ := List.mem_filterMap.mp hm
        exact processTodayRow_date hrow
      · obtain ⟨row, _, hrow⟩ := List.mem_filterMap.mp hm
        exact Or.inr (processTomorrowRow_date hrow)
    · obtain ⟨row, _, hrow⟩ := List.mem_filterMap.mp hmem
      exact processTodayRow_date hrow
  refine ⟨hdate, ?_⟩
  by_cases h1 : ent.date = today
  · left
    unfold formatEntry formatDateLabel
    dsimp only
    rw [if_pos h1]
  · right
    have h2 : ent.date = tomorrow := hdate.resolve_left h1
    unfold formatEntry formatDateLabel
    dsimp only
    rw [if_neg h1, if_pos h2]

/-- **C5.** Every entry a successful resolution emits carries a display date
equal to today or tomorrow (so its label is one of the two in-horizon labels
and the defensive `DD.MM` branch is never taken on resolver output), and the
tomorrow pass discards every tuple whose well-formed raw time is past midnight
(at least 86400 seconds), as such a time would belong to a third calendar
day. -/
theorem c5_two_day_horizon (db : Db) (stopId route : String)
    (tt : TallinnTime) (payload : SuccessPayload)
    (hrun : runArrivals db stopId route tt = .success payload) :
    (∀ e ∈ payload.data,
      (e.date = tt.date ∨ e.date = getTomorrow tt.date) ∧
      (e.dateLabel = "TÃ¤na" ∨ e.dateLabel = "Homme")) ∧
    (∀ (tom : String) (row : QueryRow) (p : GtfsTime) (h m s : Nat),
      parseGtfsTime row.arrival_time = some p → p.hours = some h →
      p.minutes = some m → p.seconds = some s → m < 60 → s < 60 →
      86400 ≤ h * 3600 + m * 60 + s → processTomorrowRow tom row = none) := by
  constructor
  · intro e he
    unfold runArrivals at hrun
    by_cases hparam : stopId = "" ∨ route = ""
    · rw [if_pos hparam] at hrun; simp at hrun
    · rw [if_neg hparam] at hrun
      cases hstop : db.stops.filter (fun s => s.stop_id == stopId) with
      | nil => rw [hstop] at hrun; simp at hrun
      | cons stop srest =>
        rw [hstop] at hrun
        cases hroute :
            db.routes.filter (fun r => r.route_short_name == some route) with
        | nil => rw [hroute] at hrun; simp at hrun
        | cons r0 rrest =>
          rw [hroute] at hrun
          dsimp only at hrun
          injection hrun with hrun
          subst hrun
          exact mem_assembleArrivals_date db stopId _ tt.date
            (getTomorrow tt.date) tt.dayOfWeek
            (getDayOfWeek (getTomorrow tt.date)) (timeToSeconds tt.time) e he
  · intro tom row p h m s hp hh hm hs hm60 hs60 hbig
    cases harr : row.arrival_time with
    | none => rw [harr] at hp; exact absurd hp (by simp [parseGtfsTime])
    | some ts =>
      rw [harr] at hp
      by_cases hts : ts = ""
      · subst hts; simp [parseGtfsTime] at hp
      · rw [parseGtfsTime] at hp
        rw [if_neg hts] at hp
        injection hp with hp
        subst hp
        dsimp only at hh hm hs
        have h24 : 24 ≤ h := by omega
        simp only [processTomorrowRow, harr, parseGtfsTime, if_neg hts]
        rw [hh]
        simp [jsGeC, h24]

set_option maxHeartbeats 4000000 in
/-- Witness for C5 at `db1`'s resolution (whose output has one today-dated and
one tomorrow-dated entry) and at the past-midnight tomorrow tuple
`"24:10:00"`, which the tomorrow pass discards. -/
theorem c5_two_day_horizon_witness :
    (∀ e ∈ ([{ time := "14:35", dateLabel := "TÃ¤na", date := "20251010",
               headsign := "Kesklinn", direction := some 0,
               route := some "10" },
             { time := "01:10", dateLabel := "Homme", date := "20251011",
               headsign := "Kesklinn", direction := some 0,
               route := some "10" }] : List OutEntry),
      (e.date = tt1.date ∨ e.date = getTomorrow tt1.date) ∧
      (e.dateLabel = "TÃ¤na" ∨ e.dateLabel = "Homme")) ∧
    processTomorrowRow "20251011"
      { arrival_time := some "24:10:00", departure_time := some "24:10:00",
        trip_id := "T1", trip_headsign := none, direction_id := none,
        route_short_name := some "10", route_long_name := none,
        service_id := none } = none := by
  have hc5 := c5_two_day_horizon db1 "S" "10" tt1
    { stop := { stop_id := "S", stop_name := "Keskus",
                stop_code := some "0001", stop_lat := some "59.4",
                stop_lon := some "24.7" },
      route := "10", currentTime := "14:00:00", currentDate := "2025-10-10",
      count := 2,
      data := [{ time := "14:35", dateLabel := "TÃ¤na", date := "20251010",
                 headsign := "Kesklinn", direction := some 0,
                 route := some "10" },
               { time := "01:10", dateLabel := "Homme", date := "20251011",
                 headsign := "Kesklinn", direction := some 0,
                 route := some "10" }] }
    (by decide)
  refine ⟨hc5.1, ?_⟩
  exact hc5.2 "20251011"
    { arrival_time := some "24:10:00", departure_time := some "24:10:00",
      trip_id := "T1", trip_headsign := none, direction_id := none,
      route_short_name := some "10", route_long_name := none,
      service_id := none }
    { hours := some 24, minutes := some 10, seconds := some 0,
      totalSeconds := some 87000, isNextDay := true,
      normalizedHours := some 0, display := "00:10" }
    24 10 0 (by rfl) rfl rfl rfl (by norm_num) (by norm_num) (by norm_num)

set_option maxHeartbeats 4000000 in
/-- **C6 (code bug).** A stored `arrival_time` that fails to parse as
`HH:MM:SS` is *not* always skipped: `parseGtfsTime("abc")` returns a non-null
object with `NaN` fields instead of `null`, and the tomorrow pass pushes it,
so the malformed row reaches the emitted list as the entry `"NaN:00"`
(contradicting the specified skip-and-continue behaviour, which the guard
`if (!parsed) continue` was evidently meant to implement). -/
theorem c6_malformed_time_emitted :
    runArrivals dbC6 "S" "10" ttC6 = .success
      { stop := { stop_id := "S", stop_name := "Keskus", stop_code := none,
                  stop_lat := none, stop_lon := none },
        route := "10", currentTime := "12:00:00",
        currentDate := "2025-10-10", count := 1,
        data := [{ time := "NaN:00", dateLabel := "Homme",
                   date := "20251011", headsign := "Pikk liin",
                   direction := none, route := some "10" }] } ∧
    parseGtfsTime (some "abc") =
      some { hours := none, minutes := some 0, seconds := some 0,
             totalSeconds := none, isNextDay := false,
             normalizedHours := none, display := "NaN:00" } :=
  ⟨by decide, by decide⟩

/-- **C7.** An unresolvable stop and an unresolvable route are reported as two
distinct not-found errors, while a stop/route pair that both exist but match
zero qualifying stop-time rows on any date yields a success response with an
empty arrival list and count 0. -/
theorem c7_notfound_and_empty (db : Db) (stopId route : String)
    (tt : TallinnTime) (h1 : stopId ≠ "") (h2 : route ≠ "") :
    (db.stops.filter (fun s => s.stop_id == stopId) = [] →
      runArrivals db stopId route tt = .error 404 "Stop not found") ∧
    (∀ s srest, db.stops.filter (fun q => q.stop_id == stopId) = s :: srest →
      db.routes.filter (fun r => r.route_short_name == some route) = [] →
      runArrivals db stopId route tt = .error 404 "Route not found") ∧
    (∀ s srest r0 rrest,
      db.stops.filter (fun q => q.stop_id == stopId) = s :: srest →
      db.routes.filter (fun r => r.route_short_name == some route) =
        r0 :: rrest →
      (∀ (dayc : Fin 7) (d : String),
        arrivalsQuery db stopId ((r0 :: rrest).map (·.route_id)) dayc d =
          []) →
      runArrivals db stopId route tt = .success
        { stop := s, route := route, currentTime := tt.time,
          currentDate := tt.dateFormatted, count := 0, data := [] }) := by
  have hparam : ¬ (stopId = "" ∨ route = "") := by simp [h1, h2]
  refine ⟨?_, ?_, ?_⟩
  · intro hstop
    unfold runArrivals
    rw [if_neg hparam, hstop]
  · intro s srest hstop hroute
    unfold runArrivals
    rw [if_neg hparam, hstop, hroute]
  · intro s srest r0 rrest hstop hroute hq
    unfold runArrivals
    rw [if_neg hparam, hstop, hroute]
    dsimp only
    unfold assembleArrivals nextArrivalsOf includedEntries todayEntriesOf
      tomorrowEntriesOf
    rw [hq, hq]
    simp

/-- Witness for C7, third clause, at `dbC7` (a stop and a route that exist
with no stop times at all): the resolution succeeds with an empty list. -/
theorem c7_notfound_and_empty_witness :
    runArrivals dbC7 "S" "10" tt1 = .success
      { stop := { stop_id := "S", stop_name := "Keskus", stop_code := none,
                  stop_lat := none, stop_lon := none },
        route := "10", currentTime := "14:00:00",
        currentDate := "2025-10-10", count := 0, data := [] } :=
  (c7_notfound_and_empty dbC7 "S" "10" tt1 (by decide) (by decide)).2.2
    { stop_id := "S", stop_name := "Keskus", stop_code := none,
      stop_lat := none, stop_lon := none } []
    { route_id := "R1", route_short_name := some "10",
      route_long_name := some "Pikk liin" } []
    (by decide) (by decide) (fun dayc d => rfl)

set_option maxHeartbeats 4000000 in
/-- **C8 (counterexample).** The headsign fallback does not have
nullish-coalescing semantics: with a non-null empty-string `trip_headsign`,
the emitted headsign is the route's long name, not the empty string, because
the code uses the logical-OR chain `trip_headsign || route_long_name || ''`
and the empty string is falsy. -/
theorem c8_headsign_counterexample :
    dbC8.trips.map (fun t => t.trip_headsign) = [some ""] ∧
    (resultData (runArrivals dbC8 "S" "10" ttC8)).map (fun e => e.headsign) =
      ["Pikk liin"] :=
  ⟨by decide, by decide⟩

/-- **C8 (amended).** For every emitted entry, the headsign is the first
*truthy* value of `trip_headsign`, `route_long_name`, `""`: a non-null,
non-empty `trip_headsign` is kept; a `null` *or empty-string* `trip_headsign`
falls back to `route_long_name` when that is non-null and non-empty, and to
the empty string otherwise (JS logical-OR semantics). -/
theorem c8_headsign_amended (today tomorrow : String) (e : Entry) :
    (∀ s, e.trip_headsign = some s → s ≠ "" →
      (formatEntry today tomorrow e).headsign = s) ∧
    ((e.trip_headsign = none ∨ e.trip_headsign = some "") →
      ∀ t, e.route_long_name = some t → t ≠ "" →
        (formatEntry today tomorrow e).headsign = t) ∧
    ((e.trip_headsign = none ∨ e.trip_headsign = some "") →
      (e.route_long_name = none ∨ e.route_long_name = some "") →
      (formatEntry today tomorrow e).headsign = "") := by
  refine ⟨?_, ?_, ?_⟩
  · intro s hs hne
    simp [formatEntry, jsOr, hs, hne]
  · intro hth t ht htne
    rcases hth with hth | hth <;> simp [formatEntry, jsOr, hth, ht, htne]
  · intro hth hrl
    rcases hth with hth | hth <;> rcases hrl with hrl | hrl <;>
      simp [formatEntry, jsOr, hth, hrl]

/-- Witness for the amended C8 at an entry with an empty-string
`trip_headsign` and long name `"Pikk liin"`: the emitted headsign is the long
name. -/
theorem c8_headsign_amended_witness :
    (formatEntry "20251010" "20251011"
      { time := "23:00", arrival_time_raw := some "23:00:00",
        totalSeconds := some 82800, date := "20251010",
        trip_headsign := some "", direction_id := some 1,
        route_short_name := some "10", route_long_name := some "Pikk liin",
        isFromPreviousDayService := false }).headsign = "Pikk liin" :=
  (c8_headsign_amended "20251010" "20251011"
    { time := "23:00", arrival_time_raw := some "23:00:00",
      totalSeconds := some 82800, date := "20251010",
      trip_headsign := some "", direction_id := some 1,
      route_short_name := some "10", route_long_name := some "Pikk liin",
      isFromPreviousDayService := false }).2.1 (Or.inr rfl) "Pikk liin" rfl
    (by decide)

/-- **C10.** When neither the stop nor the route resolves, the handler reports
the stop-not-found condition: the stop lookup is checked before the route
lookup. -/
theorem c10_stop_lookup_precedence (db : Db) (stopId route : String)
    (tt : TallinnTime) (h1 : stopId ≠ "") (h2 : route ≠ "")
    (hstop : db.stops.filter (fun s => s.stop_id == stopId) = [])
    (hroute : db.routes.filter (fun r => r.route_short_name == some route) =
      []) :
    runArrivals db stopId route tt = .error 404 "Stop not found" := by
  unfold runArrivals
  rw [if_neg (by simp [h1, h2]), hstop]

/-- Witness for C10 on the empty store: both lookups fail and the response is
the stop-not-found error. -/
theorem c10_stop_lookup_precedence_witness :
    runArrivals dbEmpty "X" "Y" tt1 = .error 404 "Stop not found" :=
  c10_stop_lookup_precedence dbEmpty "X" "Y" tt1 (by decide) (by decide) rfl
    rfl

end GtfsArrivals

namespace TallinnNearest

/-! ### Evaluation helpers for the distance function -/

theorem nSub_some (a b : ℝ) : nSub (some a) (some b) = some (a - b) := rfl

theorem nMul_some (a b : ℝ) : nMul (some a) (some b) = some (a * b) := rfl

theorem nAdd_some (a b : ℝ) : nAdd (some a) (some b) = some (a + b) := rfl

theorem nSin_some (a : ℝ) : nSin (some a) = some (Real.sin a) := rfl

theorem nCos_some (a : ℝ) : nCos (some a) = some (Real.cos a) := rfl

theorem nHalf_some (a : ℝ) : nHalf (some a) = some (a / 2) := rfl

theorem toRad_some (a : ℝ) : toRad (some a) = some (a * Real.pi / 180) := rfl

theorem nAtan2_some (a b : ℝ) : nAtan2 (some a) (some b) = some (atan2 a b) :=
  rfl

/-- `Math.sqrt` on a nonnegative number is the real square root. -/
theorem nSqrt_some_of_nonneg {a : ℝ} (h : 0 ≤ a) :
    nSqrt (some a) = some (Real.sqrt a) := by
  simp [nSqrt, not_lt.mpr h]

/-- The haversine distance from a point to itself is zero. -/
theorem getDistance_self_zero :
    getDistance (some 0) (some 0) (some 0) (some 0) = some 0 := by
  unfold getDistance nSub toRad nHalf nSin nCos nSqrt nAtan2 nMul nAdd atan2
  norm_num [Real.arctan_zero]

/-- The haversine distance from the origin to latitude 10 is a positive
number. -/
theorem getDistance_origin_ten_pos :
    ∃ D, getDistance (some 0) (some 0) (some 10) (some 0) = some D ∧
      0 < D := by
  have hpi : 0 < Real.pi := Real.pi_pos
  set x : ℝ := 10 * Real.pi / 180 / 2 with hx
  have hx0 : 0 < x := by rw [hx]; positivity
  have hxlt : x < Real.pi / 2 := by rw [hx]; nlinarith
  have hs : 0 < Real.sin x :=
    Real.sin_pos_of_pos_of_lt_pi hx0 (by nlinarith)
  have hc : 0 < Real.cos x :=
    Real.cos_pos_of_mem_Ioo ⟨by nlinarith, hxlt⟩
  have hsc : Real.sin x * Real.sin x + Real.cos x * Real.cos x = 1 := by
    have h2 := Real.sin_sq_add_cos_sq x
    nlinarith
  refine ⟨6371 * (2 * atan2 (Real.sin x) (Real.cos x)), ?_, ?_⟩
  · unfold getDistance
    simp only [nSub_some, toRad_some, nHalf_some, nSin_some, nCos_some,
      nMul_some, nAdd_some, nAtan2_some]
    norm_num
    rw [nSqrt_some_of_nonneg (mul_self_nonneg _)]
    have hsub : (1 : ℝ) - Real.sin x * Real.sin x =
        Real.cos x * Real.cos x := by nlinarith
    rw [hsub, nSqrt_some_of_nonneg (mul_self_nonneg _),
      Real.sqrt_mul_self hs.le, Real.sqrt_mul_self hc.le]
    rfl
  · have harct : 0 < atan2 (Real.sin x) (Real.cos x) := by
      unfold atan2
      rw [if_pos hc]
      have := Real.arctan_strictMono
        (show (0 : ℝ) < Real.sin x / Real.cos x by positivity)
      simpa [Real.arctan_zero] using this
    nlinarith
theorem nearestFold_spec (lat lng : NReal) :
    ∀ (stops : List TStop) (cur : Option NearestHit) (mv : Option ℝ),
      (stops.foldl (nearestStep lat lng) (cur, mv) = (cur, mv) ∧
        ∀ t ∈ stops, ∀ dt, getDistance lat lng t.lat t.lng = some dt →
          ∃ m0, mv = some m0 ∧ m0 ≤ dt) ∨
      (∃ pre s post d, stops = pre ++ s :: post ∧
        getDistance lat lng s.lat s.lng = some d ∧
        stops.foldl (nearestStep lat lng) (cur, mv) =
          (some { stop := s,
                  distance_km := some (jsRound (d * 100) / 100) },
            some d) ∧
        (∀ m0, mv = some m0 → d < m0) ∧
        (∀ t ∈ pre, ∀ dt, getDistance lat lng t.lat t.lng = some dt →
          d < dt) ∧
        (∀ t ∈ post, ∀ dt, getDistance lat lng t.lat t.lng = some dt →
          d ≤ dt)) := by
  intro stops
  induction stops with
  | nil =>
    intro cur mv
    left
    exact ⟨rfl, by simp⟩
  | cons a rest ih =>
    intro cur mv
    rw [List.foldl_cons]
    cases hDa : getDistance lat lng a.lat a.lng with
    | none =>
      have hstep : nearestStep lat lng (cur, mv) a = (cur, mv) := by
        unfold nearestStep
        rw [hDa]
      rw [hstep]
      rcases ih cur mv with ⟨heq, hall⟩ |
        ⟨pre, s, post, d, hsplit, hDs, hres, hinit, hpre, hpost⟩
      · left
        refine ⟨heq, ?_⟩
        intro t ht dt hdt
        rcases List.mem_cons.mp ht with rfl | ht
        · rw [hDa] at hdt; cases hdt
        · exact hall t ht dt hdt
      · right
        refine ⟨a :: pre, s, post, d, by rw [hsplit, List.cons_append], hDs,
          hres, hinit, ?_, hpost⟩
        intro t ht dt hdt
        rcases List.mem_cons.mp ht with rfl | ht
        · rw [hDa] at hdt; cases hdt
        · exact hpre t ht dt hdt
    | some dv =>
      cases mv with
      | none =>
        have hstep : nearestStep lat lng (cur, none) a =
            (some { stop := a,
                    distance_km := some (jsRound (dv * 100) / 100) },
              some dv) := by
          unfold nearestStep
          rw [hDa]
        rw [hstep]
        rcases ih
            (some { stop := a,
                    distance_km := some (jsRound (dv * 100) / 100) })
            (some dv) with ⟨heq, hall⟩ |
          ⟨pre, s, post, d, hsplit, hDs, hres, hinit, hpre, hpost⟩
        · right
          refine ⟨[], a, rest, dv, rfl, hDa, heq, ?_, by simp, ?_⟩
          · intro m0 hm0; cases hm0
          · intro t ht dt hdt
            obtain ⟨m0, hm0, hle⟩ := hall t ht dt hdt
            injection hm0 with hm0
            subst hm0
            exact hle
        · right
          refine ⟨a :: pre, s, post, d, by rw [hsplit, List.cons_append],
            hDs, hres, ?_, ?_, hpost⟩
          · intro m0 hm0; cases hm0
          · intro t ht dt hdt
            rcases List.mem_cons.mp ht with rfl | ht
            · rw [hDa] at hdt
              injection hdt with hdt
              subst hdt
              exact hinit dv rfl
            · exact hpre t ht dt hdt
      | some m =>
        by_cases hlt : dv < m
        · have hstep : nearestStep lat lng (cur, some m) a =
              (some { stop := a,
                      distance_km := some (jsRound (dv * 100) / 100) },
                some dv) := by
            unfold nearestStep
            rw [hDa]
            dsimp only
            rw [if_pos hlt]
          rw [hstep]
          rcases ih
              (some { stop := a,
                      distance_km := some (jsRound (dv * 100) / 100) })
              (some dv) with ⟨heq, hall⟩ |
            ⟨pre, s, post, d, hsplit, hDs, hres, hinit, hpre, hpost⟩
          · right
            refine ⟨[], a, rest, dv, rfl, hDa, heq, ?_, by simp, ?_⟩
            · intro m0 hm0
              injection hm0 with hm0
              subst hm0
              exact hlt
            · intro t ht dt hdt
              obtain ⟨m0, hm0, hle⟩ := hall t ht dt hdt
              injection hm0 with hm0
              subst hm0
              exact hle
          · right
            refine ⟨a :: pre, s, post, d, by rw [hsplit, List.cons_append],
              hDs, hres, ?_, ?_, hpost⟩
            · intro m0 hm0
              injection hm0 with hm0
              subst hm0
              exact lt_trans (hinit dv rfl) hlt
            · intro t ht dt hdt
              rcases List.mem_cons.mp ht with rfl | ht
              · rw [hDa] at hdt
                injection hdt with hdt
                subst hdt
                exact hinit dv rfl
              · exact hpre t ht dt hdt
        · have hstep : nearestStep lat lng (cur, some m) a = (cur, some m)
              := by
            unfold nearestStep
            rw [hDa]
            dsimp only
            rw [if_neg hlt]
          rw [hstep]
          rcases ih cur (some m) with ⟨heq, hall⟩ |
            ⟨pre, s, post, d, hsplit, hDs, hres, hinit, hpre, hpost⟩
          · left
            refine ⟨heq, ?_⟩
            intro t ht dt hdt
            rcases List.mem_cons.mp ht with rfl | ht
            · rw [hDa] at hdt
              injection hdt with hdt
              subst hdt
              exact ⟨m, rfl, le_of_not_lt hlt⟩
            · exact hall t ht dt hdt
          · right
            refine ⟨a :: pre, s, post, d, by rw [hsplit, List.cons_append],
              hDs, hres, hinit, ?_, hpost⟩
            intro t ht dt hdt
            rcases List.mem_cons.mp ht with rfl | ht
            · rw [hDa] at hdt
              injection hdt with hdt
              subst hdt
              exact lt_of_lt_of_le (hinit m rfl) (le_of_not_lt hlt)
            · exact hpre t ht dt hdt

/-- **C9 (counterexample).** `findNearestStop` does *not* exclude stops whose
coordinates are exactly `(0, 0)`: querying from `(0, 0)` against a stop at
latitude 10 and the invalid stop `Z` at `(0, 0)`, the code returns `Z` (the
argmin over valid-coordinate stops would be the other stop). -/
theorem c9_nearest_counterexample :
    (findNearestStop (some 0) (some 0) [stopA, stopZ]).map
        (fun h => h.stop.id) = some "Z" ∧
    stopZ.lat = some 0 ∧ stopZ.lng = some 0 := by
  obtain ⟨D, hD, hDpos⟩ := getDistance_origin_ten_pos
  have hDA : getDistance (some 0) (some 0) stopA.lat stopA.lng = some D :=
    hD
  have hDZ : getDistance (some 0) (some 0) stopZ.lat stopZ.lng = some 0 :=
    getDistance_self_zero
  have hstep1 : nearestStep (some 0) (some 0) (none, none) stopA =
      (some { stop := stopA,
              distance_km := some (jsRound (D * 100) / 100) }, some D) := by
    unfold nearestStep
    rw [hDA]
  have hstep2 : nearestStep (some 0) (some 0)
      (some { stop := stopA,
              distance_km := some (jsRound (D * 100) / 100) }, some D)
      stopZ =
      (some { stop := stopZ,
              distance_km := some (jsRound (0 * 100) / 100) }, some 0) := by
    unfold nearestStep
    rw [hDZ]
    dsimp only
    rw [if_pos hDpos]
  have hrun : findNearestStop (some 0) (some 0) [stopA, stopZ] =
      some { stop := stopZ,
             distance_km := some (jsRound (0 * 100) / 100) } := by
    unfold findNearestStop
    rw [List.foldl_cons, hstep1, List.foldl_cons, hstep2, List.foldl_nil]
  rw [hrun]
  exact ⟨rfl, rfl, rfl⟩

/-- **C9 (amended).** When `findNearestStop` returns a stop, that stop splits
the list as `pre ++ stop :: post` where its haversine distance (Earth radius
6371 km) is a number `d`, the reported `distance_km` is `d` rounded to two
decimals, `d` is strictly below the distance of every earlier stop with a
numeric distance (ties keep the first-encountered stop) and at most the
distance of every later one; stops whose distance evaluates to `NaN` (absent
coordinates) never win, but a stop at exactly `(0, 0)` participates like any
other. -/
theorem c9_nearest_amended (lat lng : NReal) (stops : List TStop)
    (hit : NearestHit) (h : findNearestStop lat lng stops = some hit) :
    ∃ pre post d, stops = pre ++ hit.stop :: post ∧
      getDistance lat lng hit.stop.lat hit.stop.lng = some d ∧
      hit.distance_km = some (jsRound (d * 100) / 100) ∧
      (∀ t ∈ pre, ∀ dt, getDistance lat lng t.lat t.lng = some dt →
        d < dt) ∧
      (∀ t ∈ post, ∀ dt, getDistance lat lng t.lat t.lng = some dt →
        d ≤ dt) := by
  rcases nearestFold_spec lat lng stops none none with ⟨heq, _⟩ |
    ⟨pre, s, post, d, hsplit, hDs, hres, _, hpre, hpost⟩
  · unfold findNearestStop at h
    rw [heq] at h
    cases h
  · unfold findNearestStop at h
    rw [hres] at h
    injection h with h
    subst h
    exact ⟨pre, post, d, hsplit, hDs, rfl, hpre, hpost⟩

/-- Witness for the amended C9 on the one-stop list `[Z]` queried from the
origin: the returned hit is `Z` itself, with the characterization
instantiated. -/
theorem c9_nearest_amended_witness :
    ∃ pre post d,
      [stopZ] = pre ++
        (({ stop := stopZ,
            distance_km := some (jsRound (0 * 100) / 100) } :
          NearestHit)).stop :: post ∧
      getDistance (some 0) (some 0)
          (({ stop := stopZ,
              distance_km := some (jsRound (0 * 100) / 100) } :
            NearestHit)).stop.lat
          (({ stop := stopZ,
              distance_km := some (jsRound (0 * 100) / 100) } :
            NearestHit)).stop.lng = some d ∧
      ({ stop := stopZ,
         distance_km := some (jsRound (0 * 100) / 100) } :
        NearestHit).distance_km = some (jsRound (d * 100) / 100) ∧
      (∀ t ∈ pre, ∀ dt,
        getDistance (some 0) (some 0) t.lat t.lng = some dt → d < dt) ∧
      (∀ t ∈ post, ∀ dt,
        getDistance (some 0) (some 0) t.lat t.lng = some dt → d ≤ dt) := by
  have hstep : nearestStep (some 0) (some 0) (none, none) stopZ =
      (some { stop := stopZ,
              distance_km := some (jsRound (0 * 100) / 100) }, some 0) := by
    unfold nearestStep
    rw [show getDistance (some 0) (some 0) stopZ.lat stopZ.lng = some 0 from
      getDistance_self_zero]
  exact c9_nearest_amended (some 0) (some 0) [stopZ]
    { stop := stopZ, distance_km := some (jsRound (0 * 100) / 100) }
    (by unfold findNearestStop
        rw [List.foldl_cons, hstep, List.foldl_nil])

end TallinnNearest
